import Mathlib

/-!
Shallow embedding of the Dialog subsystem of office-js-helpers
(`src/helpers/dialog.ts`).

Modelling conventions:
- JavaScript numbers are modelled as exact rationals (`ℚ`); an absent /
  `undefined` numeric argument is `none : Option ℚ`.  A JS `<` comparison
  against `undefined` is `false` (NaN semantics), which the embedding makes
  explicit where it matters (`_maxSize`).
- The ambient browser/host state (`window.screen.width`, `window.screen.height`,
  `Utilities.isAddin`) is passed explicitly as arguments.
- Thrown exceptions become `Except` errors; the asynchronous promise and host
  event machinery of `_open` becomes an explicit state machine (`Session`,
  `sessionStep`).
- Arbitrary JS values (the `any`-typed dialog messages) are modelled by the
  inductive `JSValue`.
-/

/-- A runtime JavaScript value, as far as the dialog message paths need it:
`undefined`, `null`, booleans, (integral) numbers, strings, functions and
plain objects with ordered string-keyed fields. -/
inductive JSValue where
  | undef
  | jsNull
  | boolean (b : Bool)
  | num (n : Int)
  | str (s : String)
  | func
  | obj (fields : List (String × JSValue))
deriving Repr

/-- JS `typeof` on a `JSValue`. -/
def typeof : JSValue → String
  | .undef => "undefined"
  | .jsNull => "object"
  | .boolean _ => "boolean"
  | .num _ => "number"
  | .str _ => "string"
  | .func => "function"
  | .obj _ => "object"

/-- JS loose equality `x == null`, true exactly for `null` and `undefined`. -/
def eqNullLoose : JSValue → Bool
  | .undef => true
  | .jsNull => true
  | _ => false

/-- JS truthiness of a possibly-absent number: `undefined`, `0` (and NaN, not
modelled) are falsy, every other number is truthy. -/
def jsTruthy : Option ℚ → Bool
  | none => false
  | some v => v != 0

/-- JSON string escaping of one character (the escapes `JSON.stringify`
produces for characters of a string literal). -/
def jsonEscapeChar (c : Char) : String :=
  if c = '"' then "\\\""
  else if c = '\\' then "\\\\"
  else if c = '\n' then "\\n"
  else if c = '\t' then "\\t"
  else if c = '\r' then "\\r"
  else String.singleton c

/-- A JSON string literal: quotes around the escaped characters. -/
def jsonQuote (s : String) : String :=
  "\"" ++ String.join (s.data.map jsonEscapeChar) ++ "\""

mutual
/-- `JSON.stringify` on a `JSValue`, as used by `Dialog.close`.  Returns
`none` for the values `JSON.stringify` maps to no JSON text at all
(`undefined` and functions); an object member whose value serializes to
nothing is omitted from the object's serialization. -/
def jsonValue : JSValue → Option String
  | .undef => none
  | .func => none
  | .jsNull => some "null"
  | .boolean b => some (if b then "true" else "false")
  | .num n => some (toString n)
  | .str s => some (jsonQuote s)
  | .obj fields => some ("\x7b" ++ String.intercalate "," (jsonMembers fields) ++ "\x7d")

/-- The serialized `"key":value` members of a JSON object, in field order,
omitting members whose value serializes to nothing. -/
def jsonMembers : List (String × JSValue) → List String
  | [] => []
  | (k, v) :: rest =>
    match jsonValue v with
    | none => jsonMembers rest
    | some s => (jsonQuote k ++ ":" ++ s) :: jsonMembers rest
end

/-- Modelled from the spec: `DialogError` lives in `src/errors/dialog`, which
is not among the provided sources; the spec treats it as "an opaque error-kind
constructor" taking a message and optionally a wrapped inner error/value
(`new DialogError(message, innerError)`). -/
structure DialogError where
  message : String
  inner : Option JSValue := none
deriving Repr

/-- `IDialogSize` (dialog.ts lines 13-33).  The source field names `width$`
and `height$` are spelled `widthPercent` and `heightPercent` here, since `$`
is not a Lean identifier character. -/
structure IDialogSize where
  width : ℚ
  widthPercent : ℚ
  height : ℚ
  heightPercent : ℚ
deriving Repr, DecidableEq

namespace Dialog

/-- `_maxSize(value, max)` (dialog.ts lines 176-178):
`value < (max - 30) ? value : max - 30`.  When `value` is `undefined` the JS
comparison evaluates to `false`, so the else branch `max - 30` is taken. -/
def _maxSize (value : Option ℚ) (max : ℚ) : ℚ :=
  match value with
  | some v => if v < max - 30 then v else max - 30
  | none => max - 30

/-- `_percentage(value, max)` (dialog.ts lines 180-182): `value * 100 / max`. -/
def _percentage (value : ℚ) (max : ℚ) : ℚ :=
  value * 100 / max

/-- `_optimizeSize(width, height)` (dialog.ts lines 161-174), with the
`window.screen` dimensions it reads passed explicitly. -/
def _optimizeSize (width height : Option ℚ) (screenWidth screenHeight : ℚ) :
    IDialogSize :=
  let optimizedWidth := _maxSize width screenWidth
  let optimizedHeight := _maxSize height screenHeight
  { widthPercent := _percentage optimizedWidth screenWidth
    heightPercent := _percentage optimizedHeight screenHeight
    width := optimizedWidth
    height := optimizedHeight }

/-- `_getSize(width, height)` (dialog.ts lines 144-159): the screen-breakpoint
default-size selector.  `width && height` uses JS truthiness; when no branch
matches (screenWidth above 1920 and a missing/zero dimension) the JS function
falls off the end and returns `undefined`, modelled as `none`. -/
def _getSize (width height : Option ℚ) (screenWidth screenHeight : ℚ) :
    Option IDialogSize :=
  if jsTruthy width && jsTruthy height then
    some (_optimizeSize width height screenWidth screenHeight)
  else if screenWidth ≤ 640 then
    some (_optimizeSize (some 640) (some 480) screenWidth screenHeight)
  else if screenWidth ≤ 1366 then
    some (_optimizeSize (some 1024) (some 768) screenWidth screenHeight)
  else if screenWidth ≤ 1920 then
    some (_optimizeSize (some 1600) (some 900) screenWidth screenHeight)
  else
    none

/-- The regex test `/^https/.test(url)` (dialog.ts line 52): does `url`
start with the five characters `https`. -/
def httpsTest (url : String) : Bool :=
  "https".data.isPrefixOf url.data

end Dialog

/-- The state a `Dialog` object holds right after construction
(fields `url`, `width`, `height`, `size` of dialog.ts). -/
structure DialogState where
  url : String
  width : Option ℚ
  height : Option ℚ
  size : IDialogSize
deriving Repr

namespace Dialog

/-- The `Dialog` constructor (dialog.ts lines 43-57): checks
`Utilities.isAddin`, checks the URL scheme, then eagerly computes
`this.size = this._optimizeSize(width, height)`.  `isAddin` and the screen
dimensions are the ambient host state, passed explicitly; a `throw` is an
`Except.error`. -/
def construct (isAddin : Bool) (screenWidth screenHeight : ℚ)
    (url : String) (width height : Option ℚ) : Except DialogError DialogState :=
  if !isAddin then
    .error ⟨"This API cannot be used outside of Office.js", none⟩
  else if !(httpsTest url) then
    .error ⟨"URL has to be loaded over HTTPS.", none⟩
  else
    .ok { url := url, width := width, height := height,
          size := _optimizeSize width height screenWidth screenHeight }

/-- The `try { Office.context.ui.messageParent(JSON.stringify(...)) } catch`
block of `Dialog.close` (dialog.ts lines 136-141).  `messageParentThrows`
models whether the external host primitive throws (and with what value); on
success the result is the exact string handed to `messageParent`. -/
def sendToParent (messageParentThrows : Option JSValue) (type : Option String)
    (message : JSValue) : Except DialogError String :=
  let typeText := match type with
    | none => "null"
    | some s => jsonQuote s
  let payload := match jsonValue message with
    | none => "\x7b\"type\":" ++ typeText ++ "\x7d"
    | some v => "\x7b\"type\":" ++ typeText ++ ",\"value\":" ++ v ++ "\x7d"
  match messageParentThrows with
  | some e => .error ⟨"Canno\x27t close dialog", some e⟩
  | none => .ok payload

/-- `Dialog.close(message?)` (dialog.ts lines 116-142): capability check,
message classification (`null`-ish, string, function, otherwise object), then
serialization of `\x7b type, value: message \x7d` handed to the host's
`messageParent`.  The `.ok` result is the transport string given to the host;
`.error` is a thrown `DialogError`. -/
def close (isAddin : Bool) (messageParentThrows : Option JSValue)
    (message : JSValue) : Except DialogError String :=
  if !isAddin then
    .error ⟨"This API cannot be used outside of Office.js", none⟩
  else if eqNullLoose message then
    sendToParent messageParentThrows none message
  else if typeof message = "string" then
    sendToParent messageParentThrows (some "string") message
  else if typeof message = "function" then
    .error ⟨"Invalid message. Canno\x27t pass functions as arguments", none⟩
  else
    sendToParent messageParentThrows (some "object") message

end Dialog

/-- The settlement state of the promise created by `_open`
(dialog.ts lines 75-109): pending, resolved with the delivered message, or
rejected with a `DialogError`.  `resolve`/`reject` settle at most once. -/
inductive PromiseState where
  | pending
  | resolved (v : String)
  | rejected (e : DialogError)
deriving Repr

/-- Promise `resolve`: settles a pending promise, a no-op afterwards. -/
def resolveP : PromiseState → String → PromiseState
  | .pending, v => .resolved v
  | s, _ => s

/-- Promise `reject`: settles a pending promise, a no-op afterwards. -/
def rejectP : PromiseState → DialogError → PromiseState
  | .pending, e => .rejected e
  | s, _ => s

/-- The discriminated completion signal `Office.AsyncResult` delivered to the
`displayDialogAsync` callback: failure with an error message
(`result.error.message`), or success yielding the dialog handler. -/
inductive AsyncResult where
  | failed (errMessage : String)
  | succeeded
deriving Repr

/-- One open dialog session, as observed through `_open`'s closure state:
the promise it controls, whether the two dialog event handlers have been
attached (set when the display callback succeeds), how many times
`dialog.close()` has been requested of the host, and the `DialogError`s
thrown synchronously inside host callbacks (which nothing catches). -/
structure Session where
  promise : PromiseState
  handlersAttached : Bool
  closeCalls : Nat
  thrown : List DialogError
deriving Repr

/-- The session right after `_open` ran its executor: pending promise, no
handlers yet, no close requests, nothing thrown. -/
def sessionInit : Session :=
  { promise := .pending, handlersAttached := false, closeCalls := 0, thrown := [] }

/-- An event the host runtime can deliver to the session's callbacks.
`messageReceived` carries `args.message` plus the exception (if any) that
delivering the resolution throws — `none` on the normal path, exercising the
`catch` branch of dialog.ts lines 84-89 when `some`. -/
inductive HostEvent where
  | displayResult (r : AsyncResult)
  | messageReceived (m : String) (resolveThrew : Option JSValue)
  | eventReceived (message : String) (error : JSValue)
deriving Repr

/-- The `DialogMessageReceived` handler (dialog.ts lines 83-93):
`try { resolve(args.message) } catch (e) { reject(wrapping) } finally
{ dialog.close() }`. -/
def onMessageReceived (s : Session) (m : String) (resolveThrew : Option JSValue) :
    Session :=
  let s1 :=
    match resolveThrew with
    | none => { s with promise := resolveP s.promise m }
    | some exn =>
        { s with promise :=
            rejectP s.promise (DialogError.mk
              "An unexpected error in the dialog has occured." (some exn)) }
  { s1 with closeCalls := s1.closeCalls + 1 }

/-- The `DialogEventReceived` handler (dialog.ts lines 95-105):
`try { reject(new DialogError(args.message, args.error)) } finally
{ dialog.close() }` (its own catch branch is unreachable, `reject` does not
throw). -/
def onEventReceived (s : Session) (message : String) (error : JSValue) : Session :=
  let s1 := { s with promise := rejectP s.promise ⟨message, some error⟩ }
  { s1 with closeCalls := s1.closeCalls + 1 }

/-- One host-delivered event processed by the callbacks `_open` installed
(dialog.ts lines 75-109).  A failed display callback executes
`throw new DialogError(result.error.message)`: the error escapes the host
callback (recorded in `thrown`), no handler is attached and the promise is
untouched.  A successful one attaches the two event handlers.  Dialog events
reach their handlers only once those are attached. -/
def sessionStep (s : Session) (e : HostEvent) : Session :=
  match e with
  | .displayResult (.failed msg) => { s with thrown := s.thrown ++ [⟨msg, none⟩] }
  | .displayResult .succeeded => { s with handlersAttached := true }
  | .messageReceived m resolveThrew =>
      if s.handlersAttached then onMessageReceived s m resolveThrew else s
  | .eventReceived message error =>
      if s.handlersAttached then onEventReceived s message error else s

/-- The host-visible side of the `result` getter: how many times the host's
`displayDialogAsync` primitive has been invoked, and a supply of fresh
promise-handle identities (reference identity of the JS `Promise` object). -/
structure HostEnv where
  displayCalls : Nat
  nextId : Nat
deriving Repr, DecidableEq

/-- The backing field `_result` of a `Dialog` object (dialog.ts line 59):
`none` models the JS `null`/`undefined` field before the first read, `some h`
the cached promise handle identity `h`. -/
structure DialogObj where
  _result : Option Nat
deriving Repr, DecidableEq

namespace Dialog

/-- The `result` getter (dialog.ts lines 60-66): on a null backing field it
runs `this._result = this._open()` — one `displayDialogAsync` call and a fresh
promise handle — and caches it; otherwise it returns the cached handle.
Returns the handle read, the updated object and the updated host state. -/
def resultGet (d : DialogObj) (env : HostEnv) : Nat × DialogObj × HostEnv :=
  match d._result with
  | some h => (h, d, env)
  | none => (env.nextId, ⟨some env.nextId⟩, ⟨env.displayCalls + 1, env.nextId + 1⟩)

/-- `n` further reads of the `result` getter, threading object and host
state. -/
def readResultN : Nat → DialogObj × HostEnv → DialogObj × HostEnv
  | 0, s => s
  | n + 1, (d, e) => readResultN n ((resultGet d e).2.1, (resultGet d e).2.2)

end Dialog

/-! ## Helper lemmas about the size arithmetic -/

/-- The capped size never exceeds the screen dimension. -/
theorem maxSize_le_screen (v : Option ℚ) (mx : ℚ) :
    Dialog._maxSize v mx ≤ mx := by
  cases v with
  | none =>
      simp only [Dialog._maxSize]
      linarith
  | some w =>
      simp only [Dialog._maxSize]
      split <;> linarith

/-- The capped size of a positive request on a screen wider than the margin
is positive. -/
theorem maxSize_pos (w : ℚ) (mx : ℚ) (hw : 0 < w) (h30 : 30 < mx) :
    0 < Dialog._maxSize (some w) mx := by
  unfold Dialog._maxSize
  dsimp only
  split <;> linarith

/-- `_optimizeSize` unfolded to its four components. -/
theorem optimizeSize_eq (width height : Option ℚ) (sw sh : ℚ) :
    Dialog._optimizeSize width height sw sh =
      { width := Dialog._maxSize width sw
        widthPercent := Dialog._percentage (Dialog._maxSize width sw) sw
        height := Dialog._maxSize height sh
        heightPercent := Dialog._percentage (Dialog._maxSize height sh) sh } := rfl

/-! ## Claim theorems: size arithmetic -/

/-- C6: for all requested and screen values, the optimized pixel width equals
`requestedWidth` when `requestedWidth < screenWidth - 30` and equals
`screenWidth - 30` otherwise; the same capping law, with the margin fixed at
30, holds for the height against `screenHeight`. -/
theorem optimizeSize_caps_at_screen_margin (w h sw sh : ℚ) :
    ((Dialog._optimizeSize (some w) (some h) sw sh).width
        = if w < sw - 30 then w else sw - 30) ∧
    ((Dialog._optimizeSize (some w) (some h) sw sh).height
        = if h < sh - 30 then h else sh - 30) := by
  rw [optimizeSize_eq]
  exact ⟨rfl, rfl⟩

/-- C7: for every positive requested size and screen dimensions greater than
30, the computed `IDialogSize` fits the screen (`width ≤ screenWidth`,
`height ≤ screenHeight`), each percentage equals exactly the capped pixel
size times 100 divided by the corresponding screen dimension, and both
percentages lie in `(0, 100]`. -/
theorem optimizeSize_invariants (w h sw sh : ℚ)
    (hw : 0 < w) (hh : 0 < h) (hsw : 30 < sw) (hsh : 30 < sh) :
    (Dialog._optimizeSize (some w) (some h) sw sh).width ≤ sw ∧
    (Dialog._optimizeSize (some w) (some h) sw sh).height ≤ sh ∧
    (Dialog._optimizeSize (some w) (some h) sw sh).widthPercent
      = (Dialog._optimizeSize (some w) (some h) sw sh).width * 100 / sw ∧
    (Dialog._optimizeSize (some w) (some h) sw sh).heightPercent
      = (Dialog._optimizeSize (some w) (some h) sw sh).height * 100 / sh ∧
    0 < (Dialog._optimizeSize (some w) (some h) sw sh).widthPercent ∧
    (Dialog._optimizeSize (some w) (some h) sw sh).widthPercent ≤ 100 ∧
    0 < (Dialog._optimizeSize (some w) (some h) sw sh).heightPercent ∧
    (Dialog._optimizeSize (some w) (some h) sw sh).heightPercent ≤ 100 := by
  have hsw0 : (0 : ℚ) < sw := by linarith
  have hsh0 : (0 : ℚ) < sh := by linarith
  have hwle : Dialog._maxSize (some w) sw ≤ sw := maxSize_le_screen _ _
  have hhle : Dialog._maxSize (some h) sh ≤ sh := maxSize_le_screen _ _
  have hwpos : 0 < Dialog._maxSize (some w) sw := maxSize_pos _ _ hw hsw
  have hhpos : 0 < Dialog._maxSize (some h) sh := maxSize_pos _ _ hh hsh
  rw [optimizeSize_eq]
  dsimp only
  unfold Dialog._percentage
  refine ⟨hwle, hhle, rfl, rfl, ?_, ?_, ?_, ?_⟩
  · exact div_pos (by nlinarith) hsw0
  · rw [div_le_iff₀ hsw0]
    nlinarith
  · exact div_pos (by nlinarith) hsh0
  · rw [div_le_iff₀ hsh0]
    nlinarith

/-- C7 witness: the invariants hold at the concrete input
`w = 500, h = 400, sw = 1000, sh = 800`. -/
theorem optimizeSize_invariants_witness :
    (Dialog._optimizeSize (some 500) (some 400) 1000 800).width ≤ 1000 ∧
    (Dialog._optimizeSize (some 500) (some 400) 1000 800).height ≤ 800 ∧
    (Dialog._optimizeSize (some 500) (some 400) 1000 800).widthPercent
      = (Dialog._optimizeSize (some 500) (some 400) 1000 800).width * 100 / 1000 ∧
    (Dialog._optimizeSize (some 500) (some 400) 1000 800).heightPercent
      = (Dialog._optimizeSize (some 500) (some 400) 1000 800).height * 100 / 800 ∧
    0 < (Dialog._optimizeSize (some 500) (some 400) 1000 800).widthPercent ∧
    (Dialog._optimizeSize (some 500) (some 400) 1000 800).widthPercent ≤ 100 ∧
    0 < (Dialog._optimizeSize (some 500) (some 400) 1000 800).heightPercent ∧
    (Dialog._optimizeSize (some 500) (some 400) 1000 800).heightPercent ≤ 100 :=
  optimizeSize_invariants 500 400 1000 800 (by norm_num) (by norm_num)
    (by norm_num) (by norm_num)

/-- C8: with no explicit size requested (`width` and `height` both absent),
the default-size selector `_getSize` feeds the breakpoint base sizes to the
optimizer — `640x480` for `screenWidth ≤ 640`, `1024x768` for
`screenWidth ≤ 1366`, `1600x900` for `screenWidth ≤ 1920` — and yields no
size at all above 1920. -/
theorem getSize_breakpoint_table (sw sh : ℚ) :
    Dialog._getSize none none sw sh =
      (if sw ≤ 640 then some (Dialog._optimizeSize (some 640) (some 480) sw sh)
       else if sw ≤ 1366 then some (Dialog._optimizeSize (some 1024) (some 768) sw sh)
       else if sw ≤ 1920 then some (Dialog._optimizeSize (some 1600) (some 900) sw sh)
       else none) := by
  simp [Dialog._getSize, jsTruthy]

/-! ## Helper lemmas about the constructor -/

/-- Whenever construction succeeds, the stored size is `_optimizeSize`
applied to the raw requested values (the constructor calls `_optimizeSize`
directly; `_getSize` has no caller). -/
theorem construct_ok_size (isAddin : Bool) (sw sh : ℚ) (url : String)
    (w h : Option ℚ) (st : DialogState)
    (hok : Dialog.construct isAddin sw sh url w h = .ok st) :
    st.size = Dialog._optimizeSize w h sw sh := by
  by_cases ha : isAddin
  · by_cases hu : Dialog.httpsTest url
    · simp [Dialog.construct, ha, hu] at hok
      rw [← hok]
    · simp [Dialog.construct, ha, hu] at hok
  · simp [Dialog.construct, ha] at hok

/-! ## Claim theorems: the constructor -/

/-- C9: inside the add-in host, constructing a `Dialog` with a URL that does
not begin with `https` fails with the URL-validation `DialogError` (the
spec's `ValidationError`), and constructing with `https://example.com`
succeeds with no error raised. -/
theorem construct_url_validation (sw sh : ℚ) (w h : Option ℚ) (url : String) :
    (Dialog.httpsTest url = false →
      Dialog.construct true sw sh url w h =
        .error ⟨"URL has to be loaded over HTTPS.", none⟩) ∧
    (Dialog.construct true sw sh "https://example.com" w h).isOk = true := by
  constructor
  · intro hurl
    simp [Dialog.construct, hurl]
  · have hu : Dialog.httpsTest "https://example.com" = true := by decide
    simp [Dialog.construct, hu, Except.isOk, Except.toBool]

/-- C9 witness: at `url = "http://example.com"` on a 1000x800 screen the
validation error is raised, and the `https://example.com` construction
succeeds. -/
theorem construct_url_validation_witness :
    Dialog.construct true 1000 800 "http://example.com" none none =
      .error ⟨"URL has to be loaded over HTTPS.", none⟩ ∧
    (Dialog.construct true 1000 800 "https://example.com" none none).isOk = true :=
  ⟨(construct_url_validation 1000 800 none none "http://example.com").1 (by decide),
   (construct_url_validation 1000 800 none none "http://example.com").2⟩

/-- C10: whenever construction succeeds, the constructor passes the raw
requested values straight to the optimizer (`st.size` is `_optimizeSize` of
them — the breakpoint selector `_getSize` is not consulted), and an
undefined dimension, for which the JS comparison `value < screenDim - 30` is
false, resolves to exactly `screenDim - 30`. -/
theorem construct_passes_raw_size (sw sh : ℚ) (url : String) (w h : Option ℚ)
    (st : DialogState)
    (hok : Dialog.construct true sw sh url w h = .ok st) :
    st.size = Dialog._optimizeSize w h sw sh ∧
    (w = none → st.size.width = sw - 30) ∧
    (h = none → st.size.height = sh - 30) := by
  have hsize := construct_ok_size true sw sh url w h st hok
  refine ⟨hsize, ?_, ?_⟩
  · intro hwnone
    rw [hsize, hwnone, optimizeSize_eq]
    simp [Dialog._maxSize]
  · intro hhnone
    rw [hsize, hhnone, optimizeSize_eq]
    simp [Dialog._maxSize]

/-- C10 witness: on a 60x50 screen with width undefined and height 10, the
constructed size is `_optimizeSize none (some 10) 60 50 = ⟨30, 50, 10, 20⟩`
and the undefined width resolves to `60 - 30`. -/
theorem construct_passes_raw_size_witness :
    Dialog.construct true 60 50 "https://example.com" none (some 10) =
      .ok ⟨"https://example.com", none, some 10, ⟨30, 50, 10, 20⟩⟩ ∧
    (DialogState.mk "https://example.com" none (some 10) ⟨30, 50, 10, 20⟩).size.width
      = (60 : ℚ) - 30 := by
  have hu : Dialog.httpsTest "https://example.com" = true := by decide
  have hok : Dialog.construct true 60 50 "https://example.com" none (some 10) =
      .ok ⟨"https://example.com", none, some 10, ⟨30, 50, 10, 20⟩⟩ := by
    simp [Dialog.construct, hu, Dialog._optimizeSize, Dialog._maxSize,
      Dialog._percentage]
    norm_num
  exact ⟨hok,
    (construct_passes_raw_size 60 50 "https://example.com" none (some 10) _ hok).2.1 rfl⟩

/-- C1 counterexample: on a 1366x768 screen, a `Dialog` constructed with
neither width nor height resolves at construction to pixel width `1336`
(= 1366 - 30), while the size optimizer applied to that screen's breakpoint
default `1024x768` yields pixel width `1024` — the construction-time size is
not the optimized breakpoint default the claim asserts. -/
theorem construct_default_size_cex :
    (Dialog.construct true 1366 768 "https://example.com" none none).map
        (fun st => st.size.width) = .ok 1336 ∧
    (Dialog._optimizeSize (some 1024) (some 768) 1366 768).width = 1024 ∧
    (1336 : ℚ) ≠ 1024 := by
  have hu : Dialog.httpsTest "https://example.com" = true := by decide
  refine ⟨?_, ?_, by norm_num⟩
  · simp [Dialog.construct, hu, Except.map, Dialog._optimizeSize, Dialog._maxSize]
    norm_num
  · rw [optimizeSize_eq]
    simp [Dialog._maxSize]
    norm_num

/-- C1 (amended): for every `Dialog` constructed inside the host with neither
width nor height supplied, the size resolved eagerly at construction is the
size optimizer applied to the undefined requested values — pixel size exactly
`screenWidth - 30` by `screenHeight - 30` — not the optimized screen-based
breakpoint default. -/
theorem construct_no_size_resolves_margin (sw sh : ℚ) (url : String)
    (st : DialogState)
    (hok : Dialog.construct true sw sh url none none = .ok st) :
    st.size = Dialog._optimizeSize none none sw sh ∧
    st.size.width = sw - 30 ∧ st.size.height = sh - 30 := by
  have hsize := construct_ok_size true sw sh url none none st hok
  refine ⟨hsize, ?_, ?_⟩ <;>
    rw [hsize, optimizeSize_eq] <;> simp [Dialog._maxSize]

/-- C1 witness: on a 50x40 screen with no requested size, construction
succeeds with size `⟨20, 40, 10, 25⟩` and the resolved pixel size is
`50 - 30` by `40 - 30`. -/
theorem construct_no_size_resolves_margin_witness :
    Dialog.construct true 50 40 "https://a.example" none none =
      .ok ⟨"https://a.example", none, none, ⟨20, 40, 10, 25⟩⟩ ∧
    (DialogState.mk "https://a.example" none none ⟨20, 40, 10, 25⟩).size.width
      = (50 : ℚ) - 30 ∧
    (DialogState.mk "https://a.example" none none ⟨20, 40, 10, 25⟩).size.height
      = (40 : ℚ) - 30 := by
  have hu : Dialog.httpsTest "https://a.example" = true := by decide
  have hok : Dialog.construct true 50 40 "https://a.example" none none =
      .ok ⟨"https://a.example", none, none, ⟨20, 40, 10, 25⟩⟩ := by
    simp [Dialog.construct, hu, Dialog._optimizeSize, Dialog._maxSize,
      Dialog._percentage]
    norm_num
  exact ⟨hok,
    (construct_no_size_resolves_margin 50 40 "https://a.example" _ hok).2.1,
    (construct_no_size_resolves_margin 50 40 "https://a.example" _ hok).2.2⟩

/-! ## Claim theorems: the static close/send operation -/

/-- C2 counterexample: `Dialog.close()` with no argument (an `undefined`
message) hands the host exactly `\x7b"type":null\x7d` — `JSON.stringify`
omits an object member whose value is `undefined` — which is not the string
`\x7b"type":null,"value":null\x7d` the claim asserts. -/
theorem close_undef_serialization_cex :
    Dialog.close true none .undef = .ok "\x7b\"type\":null\x7d" ∧
    "\x7b\"type\":null\x7d" ≠ "\x7b\"type\":null,\"value\":null\x7d" := by
  constructor
  · simp only [Dialog.close, eqNullLoose, Dialog.sendToParent, jsonValue]
    rfl
  · decide

/-- C2 (amended): the static close/send operation classifies its message and
serializes `\x7b type, value \x7d`: for `"hello"` it hands the host exactly
`\x7b"type":"string","value":"hello"\x7d`; for `\x7b a: 1 \x7d` exactly
`\x7b"type":"object","value":\x7b"a":1\x7d\x7d`; for no argument exactly
`\x7b"type":null\x7d` (the `undefined` value member is omitted); and for any
function value it fails with the `ValidationError`-style `DialogError`
before calling the host, whatever the host transport would do. -/
theorem close_serialization :
    Dialog.close true none (.str "hello")
      = .ok "\x7b\"type\":\"string\",\"value\":\"hello\"\x7d" ∧
    Dialog.close true none (.obj [("a", .num 1)])
      = .ok "\x7b\"type\":\"object\",\"value\":\x7b\"a\":1\x7d\x7d" ∧
    Dialog.close true none .undef = .ok "\x7b\"type\":null\x7d" ∧
    ∀ mp : Option JSValue, Dialog.close true mp .func =
      .error ⟨"Invalid message. Canno\x27t pass functions as arguments", none⟩ := by
  refine ⟨?_, ?_, ?_, ?_⟩
  · simp only [Dialog.close, eqNullLoose, typeof, Dialog.sendToParent, jsonValue]
    rfl
  · simp only [Dialog.close, eqNullLoose, typeof, Dialog.sendToParent,
      jsonValue, jsonMembers]
    rfl
  · simp only [Dialog.close, eqNullLoose, Dialog.sendToParent, jsonValue]
    rfl
  · intro mp
    simp only [Dialog.close, eqNullLoose, typeof]
    rfl

/-! ## Helper lemmas about the result getter -/

/-- Reading `result` on a dialog whose backing field is already populated
changes nothing and returns the cached handle. -/
theorem resultGet_cached (h : Nat) (d : DialogObj) (e : HostEnv)
    (hc : d._result = some h) : Dialog.resultGet d e = (h, d, e) := by
  simp [Dialog.resultGet, hc]

/-- Any number of reads on a dialog with a populated backing field is a
no-op on the object and the host state. -/
theorem readResultN_cached (n : Nat) (h : Nat) (e : HostEnv) :
    Dialog.readResultN n (⟨some h⟩, e) = (⟨some h⟩, e) := by
  induction n with
  | zero => rfl
  | succ n ih => simpa [Dialog.readResultN, Dialog.resultGet] using ih

/-! ## Claim theorems: result memoization and the session events -/

/-- C3: starting from a session whose `result` was never read, the first read
creates the handle with exactly one host `displayDialogAsync` call; any
number of further reads leaves the object and the host state untouched
(no second host call ever), and the next read still returns the handle
identity created by the first read. -/
theorem result_memoized (d : DialogObj) (env : HostEnv) (n : Nat)
    (hfresh : d._result = none) :
    Dialog.readResultN n ((Dialog.resultGet d env).2.1, (Dialog.resultGet d env).2.2)
      = ((Dialog.resultGet d env).2.1, (Dialog.resultGet d env).2.2) ∧
    (Dialog.resultGet
        (Dialog.readResultN n ((Dialog.resultGet d env).2.1, (Dialog.resultGet d env).2.2)).1
        (Dialog.readResultN n ((Dialog.resultGet d env).2.1, (Dialog.resultGet d env).2.2)).2).1
      = (Dialog.resultGet d env).1 ∧
    ((Dialog.resultGet d env).2.2).displayCalls = env.displayCalls + 1 := by
  have hd : Dialog.resultGet d env
      = (env.nextId, ⟨some env.nextId⟩, ⟨env.displayCalls + 1, env.nextId + 1⟩) := by
    simp [Dialog.resultGet, hfresh]
  rw [hd]
  refine ⟨readResultN_cached n _ _, ?_, rfl⟩
  rw [readResultN_cached n _ _]
  simp [Dialog.resultGet]

/-- C3 witness: a fresh dialog in a host with no prior display calls, read
once and then five further times: the state is fixed after the first read,
the sixth read returns the handle created by the first, and the host display
primitive was invoked exactly once. -/
theorem result_memoized_witness :
    Dialog.readResultN 5
        ((Dialog.resultGet ⟨none⟩ ⟨0, 0⟩).2.1, (Dialog.resultGet ⟨none⟩ ⟨0, 0⟩).2.2)
      = ((Dialog.resultGet ⟨none⟩ ⟨0, 0⟩).2.1, (Dialog.resultGet ⟨none⟩ ⟨0, 0⟩).2.2) ∧
    (Dialog.resultGet
        (Dialog.readResultN 5
          ((Dialog.resultGet ⟨none⟩ ⟨0, 0⟩).2.1, (Dialog.resultGet ⟨none⟩ ⟨0, 0⟩).2.2)).1
        (Dialog.readResultN 5
          ((Dialog.resultGet ⟨none⟩ ⟨0, 0⟩).2.1, (Dialog.resultGet ⟨none⟩ ⟨0, 0⟩).2.2)).2).1
      = (Dialog.resultGet ⟨none⟩ ⟨0, 0⟩).1 ∧
    ((Dialog.resultGet ⟨none⟩ ⟨0, 0⟩).2.2).displayCalls = HostEnv.displayCalls ⟨0, 0⟩ + 1 :=
  result_memoized ⟨none⟩ ⟨0, 0⟩ 5 rfl

/-- C4: for every open session (handlers attached, promise pending), a
message-received event with payload `m` resolves the handle with `m` when
delivery does not throw, rejects it with the wrapping `DialogError` exactly
when delivery throws, and in either case requests the host close exactly once
more — never twice. -/
theorem message_received_settles_and_closes_once (s : Session) (m : String)
    (exn : Option JSValue) (hopen : s.handlersAttached = true)
    (hpending : s.promise = .pending) :
    (sessionStep s (.messageReceived m exn)).closeCalls = s.closeCalls + 1 ∧
    (exn = none → (sessionStep s (.messageReceived m exn)).promise = .resolved m) ∧
    (∀ e, exn = some e →
      (sessionStep s (.messageReceived m exn)).promise =
        .rejected ⟨"An unexpected error in the dialog has occured.", some e⟩) := by
  refine ⟨?_, ?_, ?_⟩
  · cases exn <;> simp [sessionStep, hopen, onMessageReceived]
  · intro he
    subst he
    simp [sessionStep, hopen, onMessageReceived, hpending, resolveP]
  · intro e he
    subst he
    simp [sessionStep, hopen, onMessageReceived, hpending, rejectP]

/-- C4 witness: an open pending session receiving `"done"` with no delivery
exception resolves with `"done"` and close is requested exactly once. -/
theorem message_received_settles_witness :
    (sessionStep ⟨.pending, true, 0, []⟩ (.messageReceived "done" none)).closeCalls
      = Session.closeCalls ⟨.pending, true, 0, []⟩ + 1 ∧
    (sessionStep ⟨.pending, true, 0, []⟩ (.messageReceived "done" none)).promise
      = .resolved "done" :=
  ⟨(message_received_settles_and_closes_once ⟨.pending, true, 0, []⟩ "done" none rfl rfl).1,
   (message_received_settles_and_closes_once ⟨.pending, true, 0, []⟩ "done" none rfl rfl).2.1 rfl⟩

/-- C5: when the display callback reports failure, the `DialogError` built
from the host's error message is raised synchronously inside the callback
(it escapes, joining the uncaught `thrown` errors); the pending result handle
is not settled by this path — it stays pending — and no close is requested. -/
theorem display_failed_throws_without_settling (s : Session) (msg : String)
    (hpending : s.promise = .pending) :
    (sessionStep s (.displayResult (.failed msg))).promise = .pending ∧
    (sessionStep s (.displayResult (.failed msg))).thrown
      = s.thrown ++ [⟨msg, none⟩] ∧
    (sessionStep s (.displayResult (.failed msg))).closeCalls = s.closeCalls := by
  refine ⟨?_, rfl, rfl⟩
  simpa [sessionStep] using hpending

/-- C5 witness: a fresh pending session whose display callback reports
failure `"boom"`: the handle stays pending, the error is raised (recorded as
escaped), close never requested. -/
theorem display_failed_throws_witness :
    (sessionStep sessionInit (.displayResult (.failed "boom"))).promise = .pending ∧
    (sessionStep sessionInit (.displayResult (.failed "boom"))).thrown
      = sessionInit.thrown ++ [⟨"boom", none⟩] ∧
    (sessionStep sessionInit (.displayResult (.failed "boom"))).closeCalls
      = sessionInit.closeCalls :=
  display_failed_throws_without_settling sessionInit "boom" rfl
